import Mathlib

/-!
Verification of the moderation pipeline in `src/bot.js`.

Message text is modelled as `List Char`. JavaScript string operations are
embedded as follows: `String.prototype.includes` is substring containment
(`List.isInfixOf`), `toUpperCase`/`toLowerCase` are ASCII case maps,
`trim` drops surrounding whitespace, and the word-boundary regexes
(`HATE_REGEX`, built from a keyword alternation wrapped in `\b ... \b`)
are embedded as a scan that requires a non-word character (or an edge of
the string) on both sides of a keyword occurrence.

Timestamps (`Date.now()`) are integers in milliseconds.  Discord ids are
opaque and modelled as naturals.  External calls (OpenAI) are modelled by
an `ApiResult` oracle: either the first or second call strategy yields a
raw text, both strategies fail, or the call throws.
-/

namespace ModBot

/-! ### JavaScript string primitives -/

def jsLower (l : List Char) : List Char := l.map Char.toLower

def jsUpper (l : List Char) : List Char := l.map Char.toUpper

/-- Substring containment: `hay.includes(needle)` in JavaScript. -/
def includesB (needle : List Char) : List Char → Bool
  | [] => needle.isPrefixOf []
  | c :: rest => needle.isPrefixOf (c :: rest) || includesB needle rest

def isJsWs (c : Char) : Bool := c == ' ' || c == '\t' || c == '\n' || c == '\r'

/-- JavaScript `String.prototype.trim` on the character list. -/
def jsTrim (l : List Char) : List Char :=
  ((l.dropWhile isJsWs).reverse.dropWhile isJsWs).reverse

/-- Split on the newline character, as `split(/\r?\n/)` does (a carriage
return left at the end of a segment is removed by the `trim` that every
caller applies to each line). -/
def splitNl : List Char → List (List Char)
  | [] => [[]]
  | c :: r =>
    if c = '\n' then [] :: splitNl r
    else
      match splitNl r with
      | [] => [[c]]
      | h :: t => (c :: h) :: t

/-! ### Word-boundary regex embedding (for the `\b(w1|w2|...)\b` keyword regexes) -/

def isWordChar (c : Char) : Bool := c.isAlphanum || c == '_'

def boundaryOk : Option Char → Bool
  | none => true
  | some c => !isWordChar c

def nonWordHead : List Char → Bool
  | [] => true
  | c :: _ => !isWordChar c

/-- The word `w` occurs at the head of `s` followed by a word boundary. -/
def matchWordAt (w s : List Char) : Bool :=
  w.isPrefixOf s && nonWordHead (s.drop w.length)

/-- Scan `s` for an occurrence of `w` with word boundaries on both sides;
`prev` is the character immediately before the current position. -/
def wordScan (w : List Char) : Option Char → List Char → Bool
  | _, [] => false
  | prev, c :: rest =>
    (boundaryOk prev && matchWordAt w (c :: rest)) || wordScan w (some c) rest

/-- Test of a case-insensitive `\b(w1|w2|...)\b` regex over lowercase words. -/
def regexWordTest (words : List (List Char)) (s : List Char) : Bool :=
  words.any (fun w => wordScan w none (jsLower s))

/-! ### Categories and output normalization (`performOpenAICall`, lines 277-291) -/

inductive Category where
  | ok
  | hate
  | nsfw
  | bet
  | spam
deriving DecidableEq, Repr

def hateTok : List Char := "FLAG_HATE".toList
def nsfwTok : List Char := "FLAG_NSFW".toList
def betTok : List Char := "FLAG_BET".toList
def spamTok : List Char := "FLAG_SPAM".toList
def flagTok : List Char := "FLAG".toList

/-- The `OK` recognizer: the uppercased output equals `OK` or contains `" OK"`. -/
def okTokenShape (out : List Char) : Bool :=
  out = "OK".toList || includesB " OK".toList out

/-- Mapping of the classifier's free-form output to the closed category set
(`performOpenAICall`, the substring ladder over the uppercased output). -/
def normCategory (raw : List Char) : Category :=
  let out := jsUpper raw
  if includesB hateTok out then Category.hate
  else if includesB nsfwTok out then Category.nsfw
  else if includesB betTok out then Category.bet
  else if includesB spamTok out then Category.spam
  else if okTokenShape out then Category.ok
  else if includesB flagTok out then Category.spam
  else Category.ok

/-- Output that is recognized neither as one of the four `FLAG_*` tokens nor
as the `OK` shape. -/
def unrecognizedNonOK (raw : List Char) : Bool :=
  let out := jsUpper raw
  !includesB hateTok out && !includesB nsfwTok out && !includesB betTok out &&
    !includesB spamTok out && !okTokenShape out

/-! ### Cache (`messageCache`, `cacheGet`, `cacheSet`) -/

structure CacheVal where
  flagged : Bool
  category : Category
  ts : Int
deriving DecidableEq, Repr

def Cache := List (List Char × CacheVal)

instance : DecidableEq Cache := inferInstanceAs (DecidableEq (List _))

/-- Lookup with the TTL check; an entry older than the TTL is absent
(the source also lazily deletes it, which is observationally equivalent
for reads since a later `cacheSet` overwrites the key). -/
def cacheGet (ttlMs now : Int) (cache : Cache) (key : List Char) : Option CacheVal :=
  match List.find? (fun p => p.1 = key) cache with
  | none => none
  | some p => if now - p.2.ts > ttlMs then none else some p.2

def cacheSet (cache : Cache) (key : List Char) (flagged : Bool)
    (category : Category) (now : Int) : Cache :=
  (key, ⟨flagged, category, now⟩) :: cache.filter (fun p => p.1 ≠ key)

/-! ### Rate limiter (`allowOpenAICall`, lines 200-209) -/

structure RateState where
  windowStart : Int
  callsThisWindow : Nat
deriving DecidableEq, Repr

/-- One admission decision: reset the window when a minute has elapsed,
refuse when the budget is spent, otherwise consume one unit. -/
def allowOpenAICall (maxPerMin : Nat) (now : Int) (st : RateState) : Bool × RateState :=
  let st1 := if 60000 ≤ now - st.windowStart then RateState.mk now 0 else st
  if maxPerMin ≤ st1.callsThisWindow then (false, st1)
  else (true, RateState.mk st1.windowStart (st1.callsThisWindow + 1))

/-- A sequence of admission decisions at the given timestamps. -/
def runCalls (maxPerMin : Nat) : List Int → RateState → List Bool × RateState
  | [], st => ([], st)
  | t :: ts, st =>
    let p := allowOpenAICall maxPerMin t st
    let q := runCalls maxPerMin ts p.2
    (p.1 :: q.1, q.2)

/-! ### External call oracle -/

/-- Outcome of one OpenAI request: some strategy produced a raw text, both
strategies failed, or an exception escaped to the surrounding catch. -/
inductive ApiResult where
  | success (raw : List Char)
  | failure
  | threw
deriving DecidableEq, Repr

/-! ### Classification gateway (`performOpenAICall`, lines 233-301) -/

/-- The gateway body: cache probe, budget check, configuration check, call,
normalization, caching.  A total function: every branch, including every
failure branch, yields a result (the source never rejects; all errors are
caught and resolved). -/
def performOpenAICall (configured : Bool) (maxPerMin : Nat) (ttlMs now : Int)
    (api : ApiResult) (rs : RateState) (cache : Cache) (content : List Char) :
    (Bool × Category) × RateState × Cache :=
  match cacheGet ttlMs now cache content with
  | some e => ((e.flagged, e.category), rs, cache)
  | none =>
    let p := allowOpenAICall maxPerMin now rs
    if !p.1 then ((false, Category.ok), p.2, cacheSet cache content false Category.ok now)
    else if !configured then ((false, Category.ok), p.2, cacheSet cache content false Category.ok now)
    else
      match api with
      | ApiResult.failure =>
          ((false, Category.ok), p.2, cacheSet cache content false Category.ok now)
      | ApiResult.threw =>
          ((false, Category.ok), p.2, cacheSet cache content false Category.ok now)
      | ApiResult.success raw =>
          let cat := normCategory raw
          let flagged := cat ≠ Category.ok
          ((flagged, cat), p.2, cacheSet cache content flagged cat now)

/-! ### Adjudication response parsing (`verifyStrikeDecision`, lines 352-360) -/

def strikeTok : List Char := "STRIKE".toList
def noStrikeTok : List Char := "NO_STRIKE".toList

/-- The non-empty trimmed lines of the raw adjudication response. -/
def verificationLines (raw : List Char) : List (List Char) :=
  ((splitNl raw).map jsTrim).filter (fun l => l ≠ [])

/-- The uppercased first line (`(lines[0] || '').toUpperCase()`). -/
def verificationFirstLine (raw : List Char) : List Char :=
  jsUpper ((verificationLines raw).headD [])

/-- The reason text: remaining lines joined by spaces, cut to 200
characters, with a default when empty. -/
def verificationSecond (raw : List Char) : List Char :=
  let j := (List.intercalate [' '] ((verificationLines raw).drop 1)).take 200
  if j = [] then "No reason provided".toList else j

/-- Parsing of the adjudication response into a strike decision and a
reason, exactly as the source orders its substring tests: the `STRIKE`
test runs before the `NO_STRIKE` test. -/
def parseVerification (raw : List Char) : Bool × List Char :=
  let first := verificationFirstLine raw
  if includesB strikeTok first then (true, verificationSecond raw)
  else if includesB noStrikeTok first then (false, verificationSecond raw)
  else (false, ("ambiguous_verification_response_lenient: ".toList ++ raw.take 200))

/-! ### Adjudication step (`verifyStrikeDecision`, lines 310-366) -/

/-- The adjudication call: lenient `false` when the service is
unconfigured, when the shared per-window budget refuses the call, when
both call strategies fail, or when the attempt throws; otherwise the
response is parsed. -/
def verifyStrikeDecision (configured : Bool) (maxPerMin : Nat) (now : Int)
    (api : ApiResult) (rs : RateState) : (Bool × List Char) × RateState :=
  if !configured then
    ((false, "verification_unavailable_no_openai_lenient".toList), rs)
  else
    let p := allowOpenAICall maxPerMin now rs
    if !p.1 then
      ((false, "verification_unavailable_rate_limited_lenient".toList), p.2)
    else
      match api with
      | ApiResult.failure => ((false, "verification_failed_both_calls_lenient".toList), p.2)
      | ApiResult.threw => ((false, "verification_exception_lenient".toList), p.2)
      | ApiResult.success raw => (parseVerification raw, p.2)

/-! ### Strike store (`createStrike`, `countActiveStrikes`, lines 670-695) -/

structure Strike where
  guildId : Nat
  userId : Nat
  category : Category
  pardoned : Bool
  createdAt : Int
deriving DecidableEq, Repr

/-- Count of strikes for the pair that are not pardoned and created
strictly after `now - decayDays` days (the sliding decay window evaluated
at read time). -/
def countActiveStrikes (decayDays : Nat) (now : Int) (strikes : List Strike)
    (g u : Nat) : Nat :=
  let cutoff := now - (decayDays : Int) * 86400000
  (strikes.filter (fun s =>
    s.guildId = g ∧ s.userId = u ∧ s.pardoned = false ∧ cutoff < s.createdAt)).length

/-- Outcome of `decideAndApplyStrike`: either verification declined and
nothing was persisted, or a strike was recorded with the resulting active
count and the mute actions taken in the same flow. -/
inductive StrikeDecision where
  | skipped (reason : List Char)
  | recorded (newCount : Nat) (permMuted tempMuted : Bool)
deriving DecidableEq, Repr

/-- The strike decision flow (`decideAndApplyStrike`, lines 375-417): run
verification; only an explicit strike verdict persists a strike; the
count query and the threshold mute follow in the same flow. -/
def decideAndApplyStrike (configured : Bool) (maxPerMin permThreshold decayDays : Nat)
    (now : Int) (api : ApiResult) (rs : RateState) (g u : Nat) (cat : Category)
    (strikes : List Strike) : (List Strike × StrikeDecision) × RateState :=
  let v := verifyStrikeDecision configured maxPerMin now api rs
  if v.1.1 then
    let strikes' := strikes ++ [Strike.mk g u cat false now]
    let count := countActiveStrikes decayDays now strikes' g u
    ((strikes', StrikeDecision.recorded count (decide (permThreshold ≤ count))
        ((cat = Category.hate ∨ cat = Category.nsfw) && decide (count < permThreshold))), v.2)
  else ((strikes, StrikeDecision.skipped v.1.2), v.2)

/-! ### Hate allowlist (`HATE_ALLOWLIST`, `HATE_REGEX`, lines 127-135) -/

def HATE_KEYWORDS : List (List Char) :=
  ["nigger", "chink", "kike", "spic", "wetback", "gook", "raghead", "honky",
    "faggot", "fag", "coon", "paki"].map String.toList

def hateRegexTest (s : List Char) : Bool := regexWordTest HATE_KEYWORDS s

def HATE_ALLOWLIST : List (List Char) :=
  ["nigga", "sweats", "sweat", "sweaties", "sweaty"].map String.toList

def hateAllowHit (low : List Char) : Bool :=
  HATE_ALLOWLIST.any (fun w => includesB w low)

/-- The shared downgrade condition of every consumer of a hate-category
result: the lowercased text contains an allowlisted term and does not
match the severe-slur regex. -/
def hateDowngrade (content : List Char) : Bool :=
  let low := jsLower content
  hateAllowHit low && !hateRegexTest low

/-! ### The four consumers of a hate-category result -/

/-- Fresh-call path (messageCreate, lines 1677-1688): the just-returned
result is downgraded to OK when the allowlist condition holds. -/
def applyHateAllowlist (res : Bool × Category) (content : List Char) : Bool × Category :=
  if res.1 && res.2 = Category.hate && hateDowngrade content then (false, Category.ok)
  else res

/-- Cache-hit path (messageCreate, lines 1619-1639): whether enforcement
(delete, DM, strike flow) proceeds for the cached result. -/
def cacheHitEnforces (flagged : Bool) (cat : Category) (content : List Char) : Bool :=
  if flagged && cat = Category.hate && hateDowngrade content then false
  else flagged

/-- Quarantine monitoring, cached branch (lines 1523-1543). -/
def quarantineCacheEnforces (flagged : Bool) (cat : Category) (content : List Char) : Bool :=
  if flagged && cat = Category.hate && hateDowngrade content then false
  else flagged

/-- Quarantine monitoring, fresh-call branch (lines 1547-1567). -/
def quarantineFreshEnforces (flagged : Bool) (cat : Category) (content : List Char) : Bool :=
  if flagged && cat = Category.hate && hateDowngrade content then false
  else flagged

/-! ### Affirmation guard (`AFFIRMATION_REGEX`, line 110) -/

def allDots : List Char → Bool
  | [] => true
  | c :: r => c == '.' && allDots r

def allTs : List Char → Bool
  | [] => true
  | c :: r => c == 't' && allTs r

/-- Anchored, case-insensitive test of the affirmation alternation
`bet | alright bet | bet! | bet\.* | bett+ | bet rn | bet bro | bet fam |
facts | ok | okie | yep | yup | ya | yah | betty`.  The `bet\.*` branch is
`bet` followed by any number of dots and the `bett+` branch is `bet`
followed by one or more extra `t` characters. -/
def affirmationTest (c : List Char) : Bool :=
  let l := jsLower c
  (["bet", "alright bet", "bet!", "bet rn", "bet bro", "bet fam", "facts",
      "ok", "okie", "yep", "yup", "ya", "yah", "betty"].any
    (fun w => l = w.toList)) ||
  (match l with
    | 'b' :: 'e' :: 't' :: rest =>
      allDots rest ||
      (match rest with
        | 't' :: rest2 => allTs rest2
        | _ => false)
    | _ => false)

/-! ### Policy prefilter (`shouldCheckByPolicy`, lines 425-452)

The keyword rules (betting signal, betting numeric, NSFW, hate, long text
with a link) and the two sampling draws are taken as parameters: the
betting and link regexes are outside what the claims test, and the claims
about the affirmation guard quantify over every possible outcome of the
later rules.  The rule order and short-circuiting are the source's. -/

def shouldCheckByPolicy (bettingSignal bettingLikely nsfwHit hateHit spamLinkHit :
    List Char → Bool) (sampleHit forumSampleHit : Bool) (content : List Char)
    (isForum : Bool) : Bool :=
  let c := jsTrim content
  if c = [] then false
  else if decide (c.length ≤ 20) && affirmationTest c then false
  else if bettingSignal c then true
  else if bettingLikely c then true
  else if nsfwHit c || hateHit c then true
  else if decide (120 < c.length) && spamLinkHit c then true
  else if isForum then forumSampleHit
  else sampleHit

/-! ### Ticket creation (`createTicketChannel`, lines 766-897) -/

inductive InsertResult where
  | ok
  | uniqueViolation
  | otherError
deriving DecidableEq, Repr

/-- Environment of one `createTicketChannel` run: what the pre-check
lookup returns, the id of the freshly created channel, what the database
insert reports, and what the recovery lookup and channel fetch yield
after a uniqueness violation. -/
structure TicketEnv where
  preOpen : Option Nat
  preFetchOk : Bool
  newChannelId : Nat
  insertResult : InsertResult
  uniqueExisting : Option Nat
  uniqueFetchOk : Bool
deriving DecidableEq, Repr

inductive TicketOutcome where
  | returnedExisting (channelId : Nat)
  | returnedCreated (channelId : Nat)
  | errored
deriving DecidableEq, Repr

structure TicketResult where
  outcome : TicketOutcome
  createdChannelDeleted : Bool
deriving DecidableEq, Repr

/-- The insert-and-recover section (lines 829-855 plus the final return):
a uniqueness violation with a pre-existing open ticket of a different
channel deletes the just-created channel and returns the existing one;
any other uniqueness outcome keeps the created channel (after a
best-effort re-insert that does not change the returned value); other
database errors surface as a failure. -/
def ticketInsertPhase (env : TicketEnv) : TicketResult :=
  match env.insertResult with
  | InsertResult.ok => TicketResult.mk (TicketOutcome.returnedCreated env.newChannelId) false
  | InsertResult.otherError => TicketResult.mk TicketOutcome.errored false
  | InsertResult.uniqueViolation =>
    match env.uniqueExisting with
    | some ecid =>
      if ecid ≠ env.newChannelId then
        if env.uniqueFetchOk then TicketResult.mk (TicketOutcome.returnedExisting ecid) true
        else TicketResult.mk (TicketOutcome.returnedCreated env.newChannelId) true
      else TicketResult.mk (TicketOutcome.returnedCreated env.newChannelId) false
    | none => TicketResult.mk (TicketOutcome.returnedCreated env.newChannelId) false

/-- The body under the lock: the pre-check returns an existing open
ticket when one resolves, otherwise the channel is created and the insert
phase runs. -/
def createTicketChannel (env : TicketEnv) : TicketResult :=
  match env.preOpen with
  | some cid =>
    if env.preFetchOk then TicketResult.mk (TicketOutcome.returnedExisting cid) false
    else ticketInsertPhase env
  | none => ticketInsertPhase env

/-- The waiter path (lines 770-779): a second caller that found the lock
held awaits it, re-reads the open ticket, and returns its channel when it
resolves; otherwise it proceeds to create. -/
def ticketWaiterRecheck (openAfterWait : Option Nat) (fetchOk : Bool)
    (env : TicketEnv) : TicketResult :=
  match openAfterWait with
  | some cid =>
    if fetchOk then TicketResult.mk (TicketOutcome.returnedExisting cid) false
    else createTicketChannel env
  | none => createTicketChannel env

/-! ### Message handler (`client.on('messageCreate')`, lines 1419-1708)

A frame-effect model: the handler is followed branch by branch in the
source's order, and each run is summarised by the moderation effects it
dispatches.  Regex outcomes of the matchmaking channel, the spam/flood
detector verdict, and the sampling draws inside `shouldCheckByPolicy`
enter as oracle fields of the environment; classification and
adjudication reuse the gateway and strike definitions above. -/

structure Effects where
  bypassLogged : Bool
  spamChecked : Bool
  classifierCalled : Bool
  deleted : Bool
  muted : Bool
  struck : Bool
deriving DecidableEq, Repr

def noEffects : Effects := Effects.mk false false false false false false

structure Msg where
  inGuild : Bool
  authorIsBot : Bool
  guildId : Nat
  authorId : Nat
  channelId : Nat
  content : List Char
  isQuarantined : Bool
deriving DecidableEq, Repr

structure HandlerEnv where
  adminUserId : Nat
  adChannelId : Nat
  matchChannelId : Nat
  matchBypassMod : Bool
  matchPrefixHit : Bool
  matchHeuristicHit : Bool
  quarantineWithin72h : Bool
  spamDetected : Bool
  isForumOrThread : Bool
  configured : Bool
  maxPerMin : Nat
  ttlMs : Int
  permThreshold : Nat
  decayDays : Nat
  classifyApi : ApiResult
  verifyApi : ApiResult
  shouldCheck : Bool
deriving Repr

def strikeRecorded : StrikeDecision → Bool
  | StrikeDecision.recorded _ _ _ => true
  | _ => false

def decisionMuted : StrikeDecision → Bool
  | StrikeDecision.recorded _ p t => p || t
  | _ => false

/-- Quarantine monitoring branch (lines 1515-1585). -/
def quarantineFlow (env : HandlerEnv) (m : Msg) (now : Int) (rs : RateState)
    (cache : Cache) (strikes : List Strike) : Effects :=
  if env.quarantineWithin72h then
    match cacheGet env.ttlMs now cache m.content with
    | some e =>
      if quarantineCacheEnforces e.flagged e.category m.content then
        let d := decideAndApplyStrike env.configured env.maxPerMin env.permThreshold
          env.decayDays now env.verifyApi rs m.guildId m.authorId e.category strikes
        Effects.mk false false false true (decisionMuted d.1.2) (strikeRecorded d.1.2)
      else noEffects
    | none =>
      let p := allowOpenAICall env.maxPerMin now rs
      if p.1 then
        let r := performOpenAICall env.configured env.maxPerMin env.ttlMs now
          env.classifyApi p.2 cache m.content
        if quarantineFreshEnforces r.1.1 r.1.2 m.content then
          let d := decideAndApplyStrike env.configured env.maxPerMin env.permThreshold
            env.decayDays now env.verifyApi r.2.1 m.guildId m.authorId r.1.2 strikes
          Effects.mk false false true true (decisionMuted d.1.2) (strikeRecorded d.1.2)
        else Effects.mk false false true false false false
      else noEffects
  else noEffects

/-- Main moderation branch for non-quarantined users (lines 1587-1707):
flood check, cache probe, policy prefilter, gateway call, allowlist
downgrade, enforcement. -/
def mainFlow (env : HandlerEnv) (m : Msg) (now : Int) (rs : RateState)
    (cache : Cache) (strikes : List Strike) : Effects :=
  let sc := !env.isForumOrThread
  if sc && env.spamDetected then
    Effects.mk false true false true true true
  else
    match cacheGet env.ttlMs now cache m.content with
    | some e =>
      if cacheHitEnforces e.flagged e.category m.content then
        let d := decideAndApplyStrike env.configured env.maxPerMin env.permThreshold
          env.decayDays now env.verifyApi rs m.guildId m.authorId e.category strikes
        Effects.mk false sc false true (decisionMuted d.1.2) (strikeRecorded d.1.2)
      else Effects.mk false sc false false false false
    | none =>
      if !env.shouldCheck then Effects.mk false sc false false false false
      else if !env.configured then Effects.mk false sc false false false false
      else
        let p := allowOpenAICall env.maxPerMin now rs
        if !p.1 then Effects.mk false sc false false false false
        else
          let r := performOpenAICall env.configured env.maxPerMin env.ttlMs now
            env.classifyApi p.2 cache m.content
          let res := applyHateAllowlist r.1 m.content
          if res.1 then
            let d := decideAndApplyStrike env.configured env.maxPerMin env.permThreshold
              env.decayDays now env.verifyApi r.2.1 m.guildId m.authorId res.2 strikes
            Effects.mk false sc true true (decisionMuted d.1.2) (strikeRecorded d.1.2)
          else Effects.mk false sc true false false false

/-- The message handler guard chain in source order: ignore non-guild or
bot messages; bypass the configured admin user with only a log; bypass
the advertising channel; delete non-matchmaking posts in the matchmaking
channel; then the quarantine branch or the main flow. -/
def handleMessage (env : HandlerEnv) (m : Msg) (now : Int) (rs : RateState)
    (cache : Cache) (strikes : List Strike) : Effects :=
  if !m.inGuild || m.authorIsBot then noEffects
  else if m.authorId = env.adminUserId then
    Effects.mk true false false false false false
  else if m.channelId = env.adChannelId then noEffects
  else if m.channelId = env.matchChannelId && !env.matchBypassMod &&
      !env.matchPrefixHit && !env.matchHeuristicHit then
    Effects.mk false false false true false false
  else if m.isQuarantined then quarantineFlow env m now rs cache strikes
  else mainFlow env m now rs cache strikes

/-! ### Specification-side normalization ladder

A second normalization written from the specification's wording, as a
first-match priority table, for comparison with the source-derived
`normCategory`: substring matching in the fixed order HATE > NSFW > BET >
SPAM, then the OK shape, and for output recognized as none of these the
`FLAG` substring decides between the lowest-severity flag and OK. -/

def categoryLadder : List (List Char × Category) :=
  [(hateTok, Category.hate), (nsfwTok, Category.nsfw),
    (betTok, Category.bet), (spamTok, Category.spam)]

def specNormalize (raw : List Char) : Category :=
  let out := jsUpper raw
  match categoryLadder.find? (fun p => includesB p.1 out) with
  | some p => p.2
  | none =>
    if okTokenShape out then Category.ok
    else if includesB flagTok out then Category.spam
    else Category.ok

/-! ### Claim theorems -/

/-- C1: the claim says an adjudication response whose first line contains
the no-escalate token `NO_STRIKE` yields no strike.  The source tests
`first.includes('STRIKE')` before `first.includes('NO_STRIKE')`, and
`NO_STRIKE` contains `STRIKE` as a substring, so such a response parses
to a strike verdict and `decideAndApplyStrike` persists a strike: the
code contradicts its own prompt (`First line: STRIKE or NO_STRIKE`) and
its lenient-fallback comments. -/
theorem C1_noStrikeTokenRecordsStrike :
    (parseVerification ("NO_STRIKE\nmessage was harmless banter".toList)).1 = true ∧
    (decideAndApplyStrike true 600 5 30 0
        (ApiResult.success ("NO_STRIKE\nmessage was harmless banter".toList))
        (RateState.mk 0 0) 1 2 Category.bet []).1.1 ≠ [] := by
  decide

/-- C7 counterexample: the output `BANANA` is recognized neither as a
`FLAG_*` token nor as the OK shape, yet `normCategory` maps it to OK, not
to the lowest-severity flag category: unrecognized non-OK output is not
always mapped to `FLAG_SPAM`. -/
theorem C7_counterexample_unrecognizedToOk :
    unrecognizedNonOK ("BANANA".toList) = true ∧
    normCategory ("BANANA".toList) = Category.ok ∧
    normCategory ("BANANA".toList) ≠ Category.spam := by
  decide

/-- C7 amended: the gateway maps free-form output by substring matching
in the fixed priority order HATE > NSFW > BET > SPAM > OK, and an
unrecognized output is mapped to `FLAG_SPAM` only when it contains the
substring `FLAG`; unrecognized output without `FLAG` is mapped to OK. -/
theorem C7_amended_normalizationLadder (raw : List Char) :
    normCategory raw = specNormalize raw := by
  unfold normCategory specNormalize categoryLadder
  simp only [List.find?]
  cases h1 : includesB hateTok (jsUpper raw) <;>
    cases h2 : includesB nsfwTok (jsUpper raw) <;>
      cases h3 : includesB betTok (jsUpper raw) <;>
        cases h4 : includesB spamTok (jsUpper raw) <;>
          simp [h1, h2, h3, h4]

/-- C4 counterexample: for the text `sweaty` (allowlisted, no severe
slur) a fresh gateway call whose classifier output is `FLAG_HATE` caches
the hate category itself: the allowlist downgrade is not applied before
caching. -/
theorem C4_counterexample_cacheKeepsHate :
    hateDowngrade ("sweaty".toList) = true ∧
    (performOpenAICall true 600 600000 0 (ApiResult.success ("FLAG_HATE".toList))
        (RateState.mk 0 0) [] ("sweaty".toList)).2.2 =
      [("sweaty".toList, CacheVal.mk true Category.hate 0)] ∧
    Category.hate ≠ Category.ok := by
  decide

/-- C4 amended: the allowlist downgrade (allowlisted term present, no
severe-slur match) is applied at every consumer of a hate-category
result — the fresh-call path downgrades the result to OK, and the
cache-hit path and both quarantine monitoring paths suppress enforcement
— but the cache entry itself keeps the original hate category. -/
theorem C4_amended_allConsumersDowngrade (flagged : Bool) (content : List Char)
    (hd : hateDowngrade content = true) :
    applyHateAllowlist (true, Category.hate) content = (false, Category.ok) ∧
    cacheHitEnforces flagged Category.hate content = false ∧
    quarantineCacheEnforces flagged Category.hate content = false ∧
    quarantineFreshEnforces flagged Category.hate content = false := by
  refine ⟨?_, ?_, ?_, ?_⟩ <;> cases flagged <;>
    simp [applyHateAllowlist, cacheHitEnforces, quarantineCacheEnforces,
      quarantineFreshEnforces, hd]

/-- C4 witness at the concrete allowlisted text `sweaty`. -/
theorem C4_amended_witness :
    hateDowngrade ("sweaty".toList) = true ∧
    (applyHateAllowlist (true, Category.hate) ("sweaty".toList) = (false, Category.ok) ∧
      cacheHitEnforces true Category.hate ("sweaty".toList) = false ∧
      quarantineCacheEnforces true Category.hate ("sweaty".toList) = false ∧
      quarantineFreshEnforces true Category.hate ("sweaty".toList) = false) :=
  ⟨by decide, C4_amended_allConsumersDowngrade true ("sweaty".toList) (by decide)⟩

/-- Fail-open behaviour of the gateway body, shared helper. -/
theorem performOpenAICall_fail_open (configured : Bool) (maxPerMin : Nat)
    (ttlMs now : Int) (api : ApiResult) (rs : RateState) (cache : Cache)
    (content : List Char)
    (hmiss : cacheGet ttlMs now cache content = none)
    (hfail : (allowOpenAICall maxPerMin now rs).1 = false ∨ configured = false ∨
      api = ApiResult.failure ∨ api = ApiResult.threw) :
    (performOpenAICall configured maxPerMin ttlMs now api rs cache content).1 =
      (false, Category.ok) := by
  unfold performOpenAICall
  rw [hmiss]
  cases hp : (allowOpenAICall maxPerMin now rs).1
  · simp [hp]
  · rcases hfail with h | h | h | h
    · rw [h] at hp; cases hp
    · simp [hp, h]
    · subst h; simp [hp]
    · subst h; simp [hp]

/-- C3: the classification gateway is a total function (the source wraps
every path in catch blocks and always resolves), and on any internal
failure — refused by the per-window budget, service unconfigured, both
call strategies failing, or a thrown exception — it resolves to the OK
category with `flagged = false`. -/
theorem C3_gatewayFailOpen (configured : Bool) (maxPerMin : Nat) (ttlMs now : Int)
    (api : ApiResult) (rs : RateState) (cache : Cache) (content : List Char)
    (hmiss : cacheGet ttlMs now cache content = none)
    (hfail : (allowOpenAICall maxPerMin now rs).1 = false ∨ configured = false ∨
      api = ApiResult.failure ∨ api = ApiResult.threw) :
    (performOpenAICall configured maxPerMin ttlMs now api rs cache content).1 =
      (false, Category.ok) :=
  performOpenAICall_fail_open configured maxPerMin ttlMs now api rs cache content
    hmiss hfail

/-- C3 witness: an unconfigured service with both call strategies failing
resolves to OK. -/
theorem C3_witness :
    cacheGet 600000 0 ([] : Cache) ("hello there".toList) = none ∧
    (performOpenAICall false 600 600000 0 ApiResult.failure (RateState.mk 0 0) []
        ("hello there".toList)).1 = (false, Category.ok) :=
  ⟨by decide,
    C3_gatewayFailOpen false 600 600000 0 ApiResult.failure (RateState.mk 0 0) []
      ("hello there".toList) (by decide) (Or.inr (Or.inl rfl))⟩

/-- C2: when the adjudication service is unconfigured, the shared
per-window budget refuses the call, both call strategies fail, the call
throws, or the response first line lacks the verdict substring, the
adjudication returns a no-escalate verdict and `decideAndApplyStrike`
leaves the strike store unchanged, recording nothing: absence or
ambiguity of adjudication never creates a strike. -/
theorem C2_lenientFallbackNoStrike (configured : Bool)
    (maxPerMin permThreshold decayDays : Nat) (now : Int) (api : ApiResult)
    (rs : RateState) (g u : Nat) (cat : Category) (strikes : List Strike)
    (hfail : configured = false ∨ (allowOpenAICall maxPerMin now rs).1 = false ∨
      api = ApiResult.failure ∨ api = ApiResult.threw ∨
      (∃ raw, api = ApiResult.success raw ∧
        includesB strikeTok (verificationFirstLine raw) = false)) :
    (verifyStrikeDecision configured maxPerMin now api rs).1.1 = false ∧
    (decideAndApplyStrike configured maxPerMin permThreshold decayDays now api rs
        g u cat strikes).1 =
      (strikes, StrikeDecision.skipped
        (verifyStrikeDecision configured maxPerMin now api rs).1.2) := by
  have hv : (verifyStrikeDecision configured maxPerMin now api rs).1.1 = false := by
    unfold verifyStrikeDecision
    rcases hfail with h | h | h | h | ⟨raw, h, hamb⟩
    · simp [h]
    · cases hc : configured
      · simp
      · simp [hc, h]
    · subst h
      cases hc : configured
      · simp
      · cases hp : (allowOpenAICall maxPerMin now rs).1 <;> simp [hp]
    · subst h
      cases hc : configured
      · simp
      · cases hp : (allowOpenAICall maxPerMin now rs).1 <;> simp [hp]
    · subst h
      cases hc : configured
      · simp
      · cases hp : (allowOpenAICall maxPerMin now rs).1
        · simp [hp]
        · simp only [hp, Bool.not_true, Bool.false_eq_true, if_false, Bool.not_false,
            if_true]
          unfold parseVerification
          simp only [hamb, Bool.false_eq_true, if_false]
          split <;> rfl
  refine ⟨hv, ?_⟩
  unfold decideAndApplyStrike
  simp [hv]

/-- C2 witness: an unconfigured adjudication service skips the strike. -/
theorem C2_witness :
    ((false : Bool) = false ∨
      (allowOpenAICall 600 0 (RateState.mk 0 0)).1 = false ∨
      ApiResult.failure = ApiResult.failure ∨ ApiResult.failure = ApiResult.threw ∨
      (∃ raw, ApiResult.failure = ApiResult.success raw ∧
        includesB strikeTok (verificationFirstLine raw) = false)) ∧
    ((verifyStrikeDecision false 600 0 ApiResult.failure (RateState.mk 0 0)).1.1 = false ∧
      (decideAndApplyStrike false 600 5 30 0 ApiResult.failure (RateState.mk 0 0)
          1 2 Category.bet []).1 =
        ([], StrikeDecision.skipped
          (verifyStrikeDecision false 600 0 ApiResult.failure (RateState.mk 0 0)).1.2)) :=
  ⟨Or.inl rfl,
    C2_lenientFallbackNoStrike false 600 5 30 0 ApiResult.failure (RateState.mk 0 0)
      1 2 Category.bet [] (Or.inl rfl)⟩

/-- C5: any trimmed text within the length bound that matches the
affirmation alternation makes the prefilter skip, whatever the betting,
NSFW, hate and link rules or the sampling draws would say: the
affirmation guard is evaluated first and short-circuits them. -/
theorem C5_affirmationGuardSkips (bs bl nf ht sl : List Char → Bool) (sg sf : Bool)
    (content : List Char) (isForum : Bool)
    (hlen : (jsTrim content).length ≤ 20)
    (haff : affirmationTest (jsTrim content) = true) :
    shouldCheckByPolicy bs bl nf ht sl sg sf content isForum = false := by
  unfold shouldCheckByPolicy
  have h1 : decide ((jsTrim content).length ≤ 20) = true := decide_eq_true hlen
  by_cases hc : jsTrim content = []
  · simp [hc]
  · simp [hc, h1, haff]

/-- C5 witness: the bare input `bet` never forces a check, even when
every keyword rule and both sampling draws would fire. -/
theorem C5_witness :
    ((jsTrim ("bet".toList)).length ≤ 20 ∧
      affirmationTest (jsTrim ("bet".toList)) = true) ∧
    shouldCheckByPolicy (fun _ => true) (fun _ => true) (fun _ => true) (fun _ => true)
      (fun _ => true) true true ("bet".toList) false = false :=
  ⟨⟨by decide, by decide⟩,
    C5_affirmationGuardSkips (fun _ => true) (fun _ => true) (fun _ => true)
      (fun _ => true) (fun _ => true) true true ("bet".toList) false
      (by decide) (by decide)⟩

/-- C9: a uniqueness violation reported at ticket insert time is treated
as "someone else already created it": the just-created redundant channel
is deleted and the pre-existing open ticket's channel is returned with no
error surfaced; a caller that instead waited on the lock re-reads the
store and receives the same channel, so both callers end up referencing
the single persisted resource. -/
theorem C9_uniqueViolationRecovered (env : TicketEnv) (ecid : Nat)
    (hpre : env.preOpen = none)
    (hins : env.insertResult = InsertResult.uniqueViolation)
    (hex : env.uniqueExisting = some ecid)
    (hne : ecid ≠ env.newChannelId)
    (hfetch : env.uniqueFetchOk = true) :
    createTicketChannel env =
      TicketResult.mk (TicketOutcome.returnedExisting ecid) true ∧
    ticketWaiterRecheck (some ecid) true env =
      TicketResult.mk (TicketOutcome.returnedExisting ecid) false := by
  constructor
  · unfold createTicketChannel
    rw [hpre]
    unfold ticketInsertPhase
    rw [hins, hex]
    simp [hne, hfetch]
  · rfl

/-- C9 witness at a concrete environment: ticket for channel 7 already
exists, channel 10 was created redundantly. -/
theorem C9_witness :
    ((TicketEnv.mk none true 10 InsertResult.uniqueViolation (some 7) true).preOpen = none ∧
      (TicketEnv.mk none true 10 InsertResult.uniqueViolation (some 7) true).insertResult =
        InsertResult.uniqueViolation ∧
      (7 : Nat) ≠ 10) ∧
    (createTicketChannel (TicketEnv.mk none true 10 InsertResult.uniqueViolation (some 7) true) =
        TicketResult.mk (TicketOutcome.returnedExisting 7) true ∧
      ticketWaiterRecheck (some 7) true
          (TicketEnv.mk none true 10 InsertResult.uniqueViolation (some 7) true) =
        TicketResult.mk (TicketOutcome.returnedExisting 7) false) :=
  ⟨⟨rfl, rfl, by decide⟩,
    C9_uniqueViolationRecovered
      (TicketEnv.mk none true 10 InsertResult.uniqueViolation (some 7) true) 7
      rfl rfl rfl (by decide) rfl⟩

/-- C10: a guild message whose author is the configured admin user is
answered by the bypass log alone — the handler returns before the spam
check, the prefilter, any classification call, any deletion, any mute and
any strike. -/
theorem C10_adminBypass (env : HandlerEnv) (m : Msg) (now : Int) (rs : RateState)
    (cache : Cache) (strikes : List Strike)
    (hg : m.inGuild = true) (hb : m.authorIsBot = false)
    (ha : m.authorId = env.adminUserId) :
    handleMessage env m now rs cache strikes =
      Effects.mk true false false false false false := by
  unfold handleMessage
  simp [hg, hb, ha]

/-- C10 witness at a concrete admin-authored message. -/
theorem C10_witness :
    ((Msg.mk true false 1 42 5 ("anything at all".toList) false).inGuild = true ∧
      (Msg.mk true false 1 42 5 ("anything at all".toList) false).authorIsBot = false ∧
      (Msg.mk true false 1 42 5 ("anything at all".toList) false).authorId =
        (HandlerEnv.mk 42 100 101 false false false true false false true 600 600000 5 30
          ApiResult.failure ApiResult.failure true).adminUserId) ∧
    handleMessage
        (HandlerEnv.mk 42 100 101 false false false true false false true 600 600000 5 30
          ApiResult.failure ApiResult.failure true)
        (Msg.mk true false 1 42 5 ("anything at all".toList) false)
        0 (RateState.mk 0 0) [] [] =
      Effects.mk true false false false false false :=
  ⟨⟨rfl, rfl, rfl⟩,
    C10_adminBypass
      (HandlerEnv.mk 42 100 101 false false false true false false true 600 600000 5 30
        ApiResult.failure ApiResult.failure true)
      (Msg.mk true false 1 42 5 ("anything at all".toList) false)
      0 (RateState.mk 0 0) [] [] rfl rfl rfl⟩

/-- C8: with `permThreshold - 1` active (non-decayed, non-pardoned)
strikes on record and a verified strike verdict, the single
`decideAndApplyStrike` transition appends the strike, re-counts, reaches
the threshold, and applies the permanent mute in the same flow: its
outcome is `recorded permThreshold permMuted:=true` and the stored
active count equals the threshold. -/
theorem C8_thresholdPermMute (configured : Bool)
    (maxPerMin permThreshold decayDays : Nat) (now : Int) (api : ApiResult)
    (rs : RateState) (g u : Nat) (cat : Category) (strikes : List Strike)
    (hT : 1 ≤ permThreshold) (hd : 1 ≤ decayDays)
    (hv : (verifyStrikeDecision configured maxPerMin now api rs).1.1 = true)
    (hcount : countActiveStrikes decayDays now strikes g u = permThreshold - 1) :
    (decideAndApplyStrike configured maxPerMin permThreshold decayDays now api rs
        g u cat strikes).1.2 =
      StrikeDecision.recorded permThreshold true false ∧
    countActiveStrikes decayDays now
      (decideAndApplyStrike configured maxPerMin permThreshold decayDays now api rs
        g u cat strikes).1.1 g u = permThreshold := by
  have hdpos : (1 : Int) ≤ (decayDays : Int) := by exact_mod_cast hd
  have harg : now - (decayDays : Int) * 86400000 < now := by nlinarith
  have hnew : countActiveStrikes decayDays now
      (strikes ++ [Strike.mk g u cat false now]) g u = permThreshold := by
    unfold countActiveStrikes at hcount ⊢
    simp only [] at hcount ⊢
    rw [List.filter_append, List.length_append, hcount]
    simp [harg]
    omega
  constructor
  · unfold decideAndApplyStrike
    simp only [hv, if_true]
    rw [hnew]
    simp
  · unfold decideAndApplyStrike
    simp only [hv, if_true]
    exact hnew

/-- C8 witness: threshold 1, empty store, verified strike verdict. -/
theorem C8_witness :
    ((1 : Nat) ≤ 1 ∧ (1 : Nat) ≤ 30 ∧
      (verifyStrikeDecision true 600 0 (ApiResult.success ("STRIKE\nsevere".toList))
          (RateState.mk 0 0)).1.1 = true ∧
      countActiveStrikes 30 0 [] 1 2 = 1 - 1) ∧
    ((decideAndApplyStrike true 600 1 30 0 (ApiResult.success ("STRIKE\nsevere".toList))
          (RateState.mk 0 0) 1 2 Category.bet []).1.2 =
        StrikeDecision.recorded 1 true false ∧
      countActiveStrikes 30 0
        (decideAndApplyStrike true 600 1 30 0 (ApiResult.success ("STRIKE\nsevere".toList))
          (RateState.mk 0 0) 1 2 Category.bet []).1.1 1 2 = 1) :=
  ⟨⟨by decide, by decide, by decide, by decide⟩,
    C8_thresholdPermMute true 600 1 30 0 (ApiResult.success ("STRIKE\nsevere".toList))
      (RateState.mk 0 0) 1 2 Category.bet [] (by decide) (by decide) (by decide)
      (by decide)⟩

/-- Behaviour of a run of admission decisions that all fall inside the
current window: the first `budget - used` calls are granted, every later
call is refused, the window start never moves, and the counter advances
by exactly one per granted call. -/
theorem runCalls_window_spec (N : Nat) (ts : List Int) : ∀ st : RateState,
    (∀ t ∈ ts, t - st.windowStart < 60000) → st.callsThisWindow ≤ N →
    runCalls N ts st =
      (List.replicate (min ts.length (N - st.callsThisWindow)) true ++
        List.replicate (ts.length - (N - st.callsThisWindow)) false,
       RateState.mk st.windowStart (min (st.callsThisWindow + ts.length) N)) := by
  induction ts with
  | nil =>
    intro st hw hc
    cases st with
    | mk ws c => simp [runCalls, Nat.min_eq_left hc]
  | cons t ts ih =>
    intro st hw hc
    have hwt : t - st.windowStart < 60000 := hw t (List.mem_cons_self t ts)
    have hnr : ¬ (60000 ≤ t - st.windowStart) := by omega
    by_cases hfull : N ≤ st.callsThisWindow
    · have hceq : st.callsThisWindow = N := le_antisymm hc hfull
      have hallow : allowOpenAICall N t st = (false, st) := by
        simp only [allowOpenAICall]
        rw [if_neg hnr, if_pos hfull]
      have ihr := ih st (fun u hu => hw u (List.mem_cons_of_mem t hu)) hc
      simp only [runCalls, hallow, ihr]
      simp [hceq, List.replicate_succ]
    · have hlt : st.callsThisWindow < N := Nat.lt_of_not_le hfull
      have hallow : allowOpenAICall N t st =
          (true, RateState.mk st.windowStart (st.callsThisWindow + 1)) := by
        simp only [allowOpenAICall]
        rw [if_neg hnr, if_neg (Nat.not_le.mpr hlt)]
      have ihr := ih (RateState.mk st.windowStart (st.callsThisWindow + 1))
        (fun u hu => hw u (List.mem_cons_of_mem t hu)) hlt
      simp only [runCalls, hallow, ihr]
      have hA : min (ts.length + 1) (N - st.callsThisWindow)
          = min ts.length (N - (st.callsThisWindow + 1)) + 1 := by omega
      have hB : (ts.length + 1) - (N - st.callsThisWindow)
          = ts.length - (N - (st.callsThisWindow + 1)) := by omega
      simp [hA, hB, List.replicate_succ, RateState.mk.injEq, Prod.mk.injEq]
      omega

/-- C6: starting from an unused window, `N + 1` admission decisions with
no window rollover grant exactly the first `N` and refuse the last one,
each granted call consuming exactly one unit (the final counter is `N`);
the refused call is then resolved by the gateway as OK without reaching
the external service. -/
theorem C6_budgetExhaustion (N : Nat) (ts : List Int) (st : RateState)
    (cfg : Bool) (ttl t2 : Int) (api : ApiResult) (cache : Cache) (content : List Char)
    (h0 : st.callsThisWindow = 0) (hlen : ts.length = N + 1)
    (hw : ∀ t ∈ ts, t - st.windowStart < 60000)
    (hmiss : cacheGet ttl t2 cache content = none)
    (ht2 : t2 - st.windowStart < 60000) :
    (runCalls N ts st).1 = List.replicate N true ++ [false] ∧
    (runCalls N ts st).2 = RateState.mk st.windowStart N ∧
    (performOpenAICall cfg N ttl t2 api (runCalls N ts st).2 cache content).1 =
      (false, Category.ok) := by
  have hspec := runCalls_window_spec N ts st hw (by omega)
  rw [h0, hlen] at hspec
  have hres : (runCalls N ts st).1 = List.replicate N true ++ [false] := by
    rw [hspec]
    have hA : min (N + 1) (N - 0) = N := by omega
    have hB : (N + 1) - (N - 0) = 1 := by omega
    simp [hA, hB]
  have hst : (runCalls N ts st).2 = RateState.mk st.windowStart N := by
    rw [hspec]
    have hC : min (0 + (N + 1)) N = N := by omega
    simp [hC]
  refine ⟨hres, hst, ?_⟩
  have hnr2 : ¬ (60000 ≤ t2 - st.windowStart) := by omega
  have hrefuse : (allowOpenAICall N t2 (RateState.mk st.windowStart N)).1 = false := by
    simp only [allowOpenAICall]
    rw [if_neg hnr2]
    simp
  rw [hst]
  exact performOpenAICall_fail_open cfg N ttl t2 api (RateState.mk st.windowStart N)
    cache content hmiss (Or.inl hrefuse)

/-- C6 witness: budget 2, three calls in one window. -/
theorem C6_witness :
    ((RateState.mk 0 0).callsThisWindow = 0 ∧
      ([0, 1, 2] : List Int).length = 2 + 1 ∧
      (∀ t ∈ ([0, 1, 2] : List Int), t - (RateState.mk 0 0).windowStart < 60000) ∧
      cacheGet 600000 3 ([] : Cache) ("zzz".toList) = none ∧
      (3 : Int) - (RateState.mk 0 0).windowStart < 60000) ∧
    ((runCalls 2 [0, 1, 2] (RateState.mk 0 0)).1 = List.replicate 2 true ++ [false] ∧
      (runCalls 2 [0, 1, 2] (RateState.mk 0 0)).2 = RateState.mk 0 2 ∧
      (performOpenAICall true 2 600000 3 ApiResult.failure
          (runCalls 2 [0, 1, 2] (RateState.mk 0 0)).2 [] ("zzz".toList)).1 =
        (false, Category.ok)) :=
  ⟨⟨by decide, by decide, by decide, by decide, by decide⟩,
    C6_budgetExhaustion 2 [0, 1, 2] (RateState.mk 0 0) true 600000 3 ApiResult.failure
      [] ("zzz".toList) (by decide) (by decide) (by decide) (by decide) (by decide)⟩

end ModBot
